import Mathlib

/-!
Shallow embedding of `cloudflare-ddns.py` (a Cloudflare dynamic-DNS updater)
and proofs about its reconciliation logic.

Modelling conventions, used throughout:

* Machine-level JSON dictionaries are translated to Lean structures holding
  exactly the fields the program reads.
* The outside world (HTTP responses of the IP-detection services, of the two
  IPv6 trace endpoints, and of the Cloudflare API) is an explicit `World`
  value; every externally-determined outcome is a field of it, so theorems
  quantify over all possible network behaviours.
* Python exceptions are modelled with `Except PyErr`; a `try/except` block
  becomes a `match` on the `Except` value.  Code that cannot raise is given
  a plain (non-`Except`) type.
* `cf_api` returns `None` on every caught failure; call sites therefore see
  an `Option` result.  The guard `if answer and answer.get("result")` is
  modelled on an `Option (List DNSRec)` (or `Option` of a payload): `none`
  covers both "cf_api returned None" and "the result key is absent/null",
  while a present-but-empty list is `some []`, which the guard also rejects
  because an empty Python list is falsy.
-/

namespace CloudflareDDNS

/-- A DNS record as returned by the Cloudflare list endpoint: the program
reads exactly the fields `id`, `name`, `content`, `proxied`. -/
structure DNSRec where
  id : String
  name : String
  content : String
  proxied : Bool
deriving DecidableEq, Repr

/-- The record payload the program builds in `prepareDNSRecord`:
`{"type": ..., "name": ..., "content": ..., "proxied": ..., "ttl": ...}`. -/
structure DesiredRecord where
  type : String
  name : String
  content : String
  proxied : Bool
  ttl : Int
deriving DecidableEq, Repr

/-- One entry of the `subdomains` list of a config account.  The Python code
reads it as a dict: `subdomain.get("name", subdomain)` and
`subdomain.get("proxied", option["proxied"])`.  `name = none` models a dict
whose "name" key is absent (in which case `dict.get` returns the dict itself
and the subsequent `.strip()` raises `AttributeError`). -/
structure Subdomain where
  name : Option String
  proxied : Option Bool
deriving DecidableEq, Repr

/-- One entry of `config["cloudflare"]`: the fields the reconciliation code
reads (`zone_id`, `subdomains`, and the account-level `proxied` default).
Authentication data only feeds `buildHeaders` and never influences which
calls are issued, so it is omitted from the trace-level model. -/
structure Account where
  zone_id : String
  subdomains : List Subdomain
  proxied : Bool
deriving DecidableEq, Repr

/-- The three feature toggles read by `getIPs`. -/
structure Flags where
  ipv4_enabled : Bool
  ipv6_enabled : Bool
  purgeUnknownRecords : Bool
deriving DecidableEq, Repr

/-- The warn-once global booleans. -/
structure WarnState where
  shown_ipv4_warning : Bool
  shown_ipv6_warning : Bool
  shown_ipv6_warning_secondary : Bool
deriving DecidableEq, Repr

/-- A detected address: the dict `{"type": "A"|"AAAA", "ip": ...}` built at
the end of `getIPs`. -/
structure DetectedIP where
  type : String
  ip : String
deriving DecidableEq, Repr

/-- Python exceptions, as much of them as the control flow observes. -/
inductive PyErr where
  | exception (msg : String)
  | attributeError (msg : String)
deriving DecidableEq, Repr

/-- A mutating Cloudflare API call issued by the program (the write trace).
List (`GET`) calls are modelled by the `World` oracle instead, since only
their results matter. -/
inductive WriteCall where
  | post (zone_id : String) (body : DesiredRecord)
  | put (zone_id : String) (identifier : String) (body : DesiredRecord)
  | delete (zone_id : String) (identifier : String)
deriving DecidableEq, Repr

/-- Is this write a create (`POST`)? -/
def WriteCall.isPost : WriteCall → Bool
  | .post _ _ => true
  | _ => false

/-- Is this write an update (`PUT`)? -/
def WriteCall.isPut : WriteCall → Bool
  | .put _ _ _ => true
  | _ => false

/-- Is this write a deletion (`DELETE`)? -/
def WriteCall.isDelete : WriteCall → Bool
  | .delete _ _ => true
  | _ => false

/-! ## The provider client `cf_api` -/

/-- The outcome of the single `requests.request` call inside `cf_api`:
either the transport raised a `requests.exceptions.RequestException`
(connection error, timeout, too many redirects, ...), or a response arrived
with a status code and a body that either parses as JSON (`some` payload) or
does not (`none`; with requests ≥ 2.27 `response.json()` then raises
`requests.exceptions.JSONDecodeError`, a subclass of `RequestException`). -/
inductive HttpOutcome (α : Type) where
  | transportError (msg : String)
  | response (status : Nat) (body : Option α)
deriving DecidableEq, Repr

/-- `cf_api` (lines 152-161): issues the request, calls
`response.raise_for_status()` — which raises exactly for status codes in
400..599 — then `response.json()`; every `RequestException` is caught,
logged, and converted to `None`. -/
def cf_api {α : Type} (outcome : HttpOutcome α) : Option α :=
  match outcome with
  | .transportError _ => none
  | .response status body =>
    if 400 ≤ status ∧ status ≤ 599 then none
    else
      match body with
      | none => none
      | some payload => some payload

/-! ## TTL handling -/

/-- Lines 200-201: `ttl = config.get("ttl", 300)` then `ttl = max(ttl, 1)`.
The argument is the optional `"ttl"` entry of the config. -/
def effectiveTTL (configured : Option Int) : Int :=
  max (configured.getD 300) 1

/-! ## `prepareDNSRecord` -/

/-- Python `str.strip()`: remove leading and trailing whitespace. -/
def pyStrip (s : String) : String :=
  String.mk (((s.data.dropWhile Char.isWhitespace).reverse.dropWhile Char.isWhitespace).reverse)

/-- Python `str.lower()`: lowercase every character. -/
def pyLower (s : String) : String :=
  String.mk (s.data.map Char.toLower)

/-- Python truthiness of the `identifier` variable of `processDNSRecord`:
`None` and the empty string are falsy, every other string is truthy. -/
def pyTruthy : Option String → Bool
  | none => false
  | some s => s ≠ ""

/-- `prepareDNSRecord` (lines 129-134).  `subdomain.get("name", subdomain)`
yields the name string when the key is present and the dict itself when it
is absent; in the latter case the chained `.strip()` raises
`AttributeError` (dicts have no `strip`), modelled as `Except.error`.
Python `.strip().lower()` is modelled by `pyStrip` and
`pyLower`.  The fqdn is `f"{name}.{base}"` when the normalized name
is truthy (non-empty) and not `"@"`, else the bare base domain. -/
def prepareDNSRecord (subdomain : Subdomain) (base_domain_name : String)
    (ip : DetectedIP) (option : Account) (ttl : Int) :
    Except PyErr (String × DesiredRecord) :=
  match subdomain.name with
  | none => Except.error (PyErr.attributeError "dict object has no attribute strip")
  | some raw =>
    let name := pyLower (pyStrip raw)
    let proxied := subdomain.proxied.getD option.proxied
    let fqdn := if name ≠ "" ∧ name ≠ "@" then name ++ "." ++ base_domain_name
                else base_domain_name
    Except.ok (fqdn, { type := ip.type, name := fqdn, content := ip.ip,
                       proxied := proxied, ttl := ttl })

/-! ## `processDNSRecord` -/

/-- One iteration of the `for r in dns_records["result"]` loop of
`processDNSRecord` (lines 141-144): on a name match both `identifier` and
`modified` are overwritten, otherwise the pair is left unchanged. -/
def matchStep (fqdn : String) (record : DesiredRecord)
    (acc : Option String × Bool) (r : DNSRec) : Option String × Bool :=
  if r.name == fqdn then
    (some r.id, r.content != record.content || r.proxied != record.proxied)
  else acc

/-- The last record of the listing whose name equals `fqdn` — the one the
loop of `processDNSRecord` leaves in `identifier`/`modified`. -/
def lastMatch (fqdn : String) : List DNSRec → Option DNSRec
  | [] => none
  | r :: rs =>
    match lastMatch fqdn rs with
    | some m => some m
    | none => if r.name == fqdn then some r else none

/-- `processDNSRecord` (lines 136-150), as the list of write calls it
issues.  `listing` is the collapsed result of the `GET dns_records` call
(see the file header): `none` when `cf_api` failed or the result key was
absent, `some rs` for a result list `rs`; the Python guard additionally
rejects an empty list.  The loop computes `identifier`/`modified`
(last-match-wins); then `if identifier and modified` issues one `PUT`,
`elif not identifier` issues one `POST`, and otherwise nothing happens. -/
def processDNSRecord (fqdn : String) (record : DesiredRecord)
    (zone_id : String) (listing : Option (List DNSRec)) : List WriteCall :=
  match listing with
  | none => []
  | some rs =>
    if rs.isEmpty then []
    else
      let im := rs.foldl (matchStep fqdn record) (none, false)
      if pyTruthy im.1 && im.2 then
        [WriteCall.put zone_id (im.1.getD "") record]
      else if !pyTruthy im.1 then
        [WriteCall.post zone_id record]
      else []

/-! ## `deleteEntries` (the purge manager) -/

/-- `deleteEntries` (lines 29-36), as the list of `DELETE` calls it issues.
`listing z` is the collapsed outcome of
`GET zones/{z}/dns_records?per_page=100&type={type}` for zone `z` (see the
file header); when the guard `if answer and answer.get("result")` passes,
one `DELETE` per listed record is issued, in order. -/
def deleteEntries (cfg : List Account) (listing : String → Option (List DNSRec)) :
    List WriteCall :=
  cfg.flatMap (fun option =>
    match listing option.zone_id with
    | none => []
    | some rs =>
      if rs.isEmpty then []
      else rs.map (fun record => WriteCall.delete option.zone_id record.id))

/-! ## IP detection -/

/-- The inner `get_public_ip` of `getIPs` (lines 39-52).  `outcomes` has one
entry per element of `ip_detection_services`, in order: `none` when
`requests.get` raised a `RequestException` (caught, logged, next service
tried) and `some (status, body)` for a response.  The first response with
status 200 wins and its stripped body is returned; any other status falls
through to the next service.  When the list is exhausted the function
raises `Exception("Failed to detect public IP from all services.")`. -/
def get_public_ip : List (Option (Nat × String)) → Except PyErr String
  | [] => Except.error (PyErr.exception "Failed to detect public IP from all services.")
  | none :: rest => get_public_ip rest
  | some (status, body) :: rest =>
    if status == 200 then Except.ok (pyStrip body) else get_public_ip rest

/-- The world: every externally-determined outcome a poll cycle can observe.
`records z t` is the collapsed result of listing the records of kind `t` in
zone `z`, and `zoneName z` the collapsed result of `GET zones/{z}` (the
`name` field of its `result`); both are `none` whenever `cf_api` returned
`None` or the response failed the callers' truthiness guards.  `v6primary`
and `v6secondary` are the outcomes of the two IPv6 trace fetch-and-parse
blocks: `Except.error` covers any exception inside the `try` (transport
error, or a parse failure of the `key=value` body). -/
structure World where
  v4outcomes : List (Option (Nat × String))
  v6primary : Except PyErr String
  v6secondary : Except PyErr String
  zoneName : String → Option String
  records : String → String → Option (List DNSRec)

/-- `getIPs` (lines 38-106), returning the detected addresses (the
`ips.values()` of the final dict, IPv4 first), the write calls issued by
the optional purges, and the updated warn-once state.  Each `try/except`
is the corresponding `match` on an `Except` value; when IPv4 detection
fails, `deleteEntries("A")` runs iff purging is enabled, and when both
IPv6 attempts fail, `deleteEntries("AAAA")` runs iff purging is enabled. -/
def getIPs (w : World) (cfg : List Account) (fl : Flags) (st : WarnState) :
    List DetectedIP × List WriteCall × WarnState :=
  let stepA : Option String × List WriteCall × WarnState :=
    if fl.ipv4_enabled then
      match get_public_ip w.v4outcomes with
      | Except.ok ip => (some ip, [], st)
      | Except.error _ =>
        (none,
         if fl.purgeUnknownRecords then deleteEntries cfg (fun z => w.records z "A")
         else [],
         { st with shown_ipv4_warning := true })
    else (none, [], st)
  let a := stepA.1
  let st1 := stepA.2.2
  let stepB : Option String × List WriteCall × WarnState :=
    if fl.ipv6_enabled then
      match w.v6primary with
      | Except.ok ip => (some ip, [], st1)
      | Except.error _ =>
        let st2 := { st1 with shown_ipv6_warning := true }
        match w.v6secondary with
        | Except.ok ip => (some ip, [], st2)
        | Except.error _ =>
          (none,
           if fl.purgeUnknownRecords then deleteEntries cfg (fun z => w.records z "AAAA")
           else [],
           { st2 with shown_ipv6_warning_secondary := true })
    else (none, [], st1)
  let aaaa := stepB.1
  let ips :=
    (match a with
     | some ip => [({ type := "A", ip := ip } : DetectedIP)]
     | none => []) ++
    (match aaaa with
     | some ip => [({ type := "AAAA", ip := ip } : DetectedIP)]
     | none => [])
  (ips, stepA.2.1 ++ stepB.2.1, stepB.2.2)

/-! ## `commitRecord`, `updateIPs`, and the poll cycle -/

/-- The `for subdomain in subdomains` loop of `commitRecord` (lines
125-127) for one account.  Returns the write calls issued so far and, when
`prepareDNSRecord` raised (absent name key), the escaping exception: the
loop aborts there, so later subdomains of this account issue nothing. -/
def commitSubdomains (w : World) (option : Account) (base_domain_name : String)
    (ttl : Int) (ip : DetectedIP) :
    List Subdomain → List WriteCall × Option PyErr
  | [] => ([], none)
  | subdomain :: rest =>
    match prepareDNSRecord subdomain base_domain_name ip option ttl with
    | Except.error e => ([], some e)
    | Except.ok (fqdn, record) =>
      let calls := processDNSRecord fqdn record option.zone_id
                     (w.records option.zone_id ip.type)
      let tail := commitSubdomains w option base_domain_name ttl ip rest
      (calls ++ tail.1, tail.2)

/-- `commitRecord` (lines 118-127): for each account, resolve the zone name
(`response and response.get("result")` — on failure the account is silently
skipped), then reconcile every subdomain.  An exception escaping
`prepareDNSRecord` aborts the remaining accounts too (it propagates up to
`updateIPs`); the calls already issued stay in the trace. -/
def commitRecord (w : World) (cfg : List Account) (ttl : Int) (ip : DetectedIP) :
    List WriteCall × Option PyErr :=
  match cfg with
  | [] => ([], none)
  | option :: rest =>
    match w.zoneName option.zone_id with
    | none => commitRecord w rest ttl ip
    | some base =>
      let here := commitSubdomains w option base ttl ip option.subdomains
      match here.2 with
      | some e => (here.1, some e)
      | none =>
        let tail := commitRecord w rest ttl ip
        (here.1 ++ tail.1, tail.2)

/-- `updateIPs` (lines 172-179): `commitRecord` is called once per detected
address, inside `try/except Exception` — any escaping exception is caught
and logged, and the loop moves on to the next address. -/
def updateIPs (w : World) (cfg : List Account) (ttl : Int)
    (ips : List DetectedIP) : List WriteCall :=
  ips.flatMap (fun ip => (commitRecord w cfg ttl ip).1)

/-- One iteration of the main `while` loop (lines 205-208):
`ips = getIPs()` then `updateIPs(ips)`.  The result is the detected
addresses, the cycle's full write trace, and the updated warn-once state;
an uncaught exception anywhere inside the cycle would surface as
`Except.error`. -/
def runCycle (w : World) (cfg : List Account) (fl : Flags) (ttl : Int)
    (st : WarnState) :
    Except PyErr (List DetectedIP × List WriteCall × WarnState) :=
  let got := getIPs w cfg fl st
  let upCalls := updateIPs w cfg ttl got.1
  Except.ok (got.1, got.2.1 ++ upCalls, got.2.2)

/-! ## Concrete fixtures used by witnesses and counterexamples -/

/-- A desired-record payload for `home.example.com` pointing at `1.2.3.4`,
as `prepareDNSRecord` would build it. -/
def homeRecord : DesiredRecord :=
  { type := "A", name := "home.example.com", content := "1.2.3.4",
    proxied := true, ttl := 300 }

/-- A single-account configuration for zone `zone1` with no subdomains. -/
def purgeCfg : List Account :=
  [{ zone_id := "zone1", subdomains := [], proxied := false }]

/-- A world where IPv4 detection succeeds on the first service, both IPv6
trace endpoints fail, and zone `zone1` lists exactly two `AAAA` records. -/
def purgeWorld : World :=
  { v4outcomes := [some (200, "1.2.3.4")],
    v6primary := Except.error (PyErr.exception "timeout"),
    v6secondary := Except.error (PyErr.exception "timeout"),
    zoneName := fun _ => none,
    records := fun z t =>
      if z = "zone1" ∧ t = "AAAA" then
        some [{ id := "ra", name := "alpha.example.com", content := "x", proxied := false },
              { id := "rb", name := "beta.example.com", content := "y", proxied := false }]
      else none }

/-- The two `AAAA` records `purgeWorld` lists in every account's zone. -/
def purgeRecs : Account → List DNSRec := fun _ =>
  [{ id := "ra", name := "alpha.example.com", content := "x", proxied := false },
   { id := "rb", name := "beta.example.com", content := "y", proxied := false }]

/-! ## Helper lemmas about the match loop of `processDNSRecord` -/

theorem lastMatch_eq_none {fqdn : String} :
    ∀ {rs : List DNSRec}, lastMatch fqdn rs = none ↔ ∀ r ∈ rs, r.name ≠ fqdn := by
  intro rs
  induction rs with
  | nil => simp [lastMatch]
  | cons r rs ih =>
    simp only [lastMatch]
    cases h : lastMatch fqdn rs with
    | some m =>
      simp only [reduceCtorEq, false_iff]
      intro hall
      have hnone : lastMatch fqdn rs = none :=
        ih.mpr fun r' hr' => hall r' (List.mem_cons_of_mem _ hr')
      simp [h] at hnone
    | none =>
      constructor
      · intro hif r' hr'
        rcases List.mem_cons.mp hr' with rfl | hmem
        · intro hname
          simp [hname] at hif
        · exact ih.mp h r' hmem
      · intro hall
        have : r.name ≠ fqdn := hall r (List.mem_cons_self r rs)
        simp [this]

theorem lastMatch_mem {fqdn : String} {rs : List DNSRec} {m : DNSRec}
    (h : lastMatch fqdn rs = some m) : m ∈ rs ∧ m.name = fqdn := by
  induction rs with
  | nil => simp [lastMatch] at h
  | cons r rs ih =>
    simp only [lastMatch] at h
    cases h' : lastMatch fqdn rs with
    | some m' =>
      rw [h'] at h
      obtain rfl : m' = m := by simpa using h
      exact ⟨List.mem_cons_of_mem _ (ih h').1, (ih h').2⟩
    | none =>
      rw [h'] at h
      by_cases hn : r.name == fqdn
      · simp only [hn, if_pos] at h
        obtain rfl : r = m := by simpa using h
        exact ⟨List.mem_cons_self _ _, by simpa using hn⟩
      · simp [hn] at h

theorem lastMatch_unique {fqdn : String} {rs : List DNSRec} {r : DNSRec}
    (hmem : r ∈ rs) (hname : r.name = fqdn)
    (huniq : ∀ r' ∈ rs, r'.name = fqdn → r' = r) :
    lastMatch fqdn rs = some r := by
  cases h : lastMatch fqdn rs with
  | none =>
    exact absurd hname (lastMatch_eq_none.mp h r hmem)
  | some m =>
    obtain ⟨hm, hmn⟩ := lastMatch_mem h
    rw [huniq m hm hmn]

/-- The `for r in dns_records["result"]` loop leaves exactly the data of the
last matching record in `identifier`/`modified`. -/
theorem foldl_matchStep (fqdn : String) (record : DesiredRecord) :
    ∀ (rs : List DNSRec) (init : Option String × Bool),
      rs.foldl (matchStep fqdn record) init =
        match lastMatch fqdn rs with
        | none => init
        | some m => (some m.id, m.content != record.content || m.proxied != record.proxied) := by
  intro rs
  induction rs with
  | nil => intro init; rfl
  | cons r rs ih =>
    intro init
    simp only [List.foldl_cons, lastMatch, ih]
    cases h : lastMatch fqdn rs with
    | some m => rfl
    | none =>
      simp only [matchStep]
      by_cases hn : r.name == fqdn
      · simp [hn]
      · simp [hn]

/-- `processDNSRecord` on a successful, non-empty listing, rewritten by the
decision the last matching record induces. -/
theorem processDNSRecord_eq (fqdn : String) (record : DesiredRecord)
    (zone_id : String) (rs : List DNSRec) (hne : rs ≠ []) :
    processDNSRecord fqdn record zone_id (some rs) =
      match lastMatch fqdn rs with
      | none => [WriteCall.post zone_id record]
      | some m =>
        if m.id ≠ "" ∧ (m.content ≠ record.content ∨ m.proxied ≠ record.proxied) then
          [WriteCall.put zone_id m.id record]
        else if m.id = "" then [WriteCall.post zone_id record]
        else [] := by
  simp only [processDNSRecord, List.isEmpty_eq_true, hne, if_false]
  rw [foldl_matchStep]
  cases h : lastMatch fqdn rs with
  | none => simp [pyTruthy]
  | some m =>
    simp only [pyTruthy]
    by_cases hid : m.id = ""
    · simp [hid]
    · by_cases hc : m.content = record.content
      · by_cases hp : m.proxied = record.proxied
        · simp [hid, hc, hp]
        · simp [hid, hc, hp]
      · simp [hid, hc]

/-! ## Claim theorems -/

/-- Claim C9: the effective TTL applied to managed records and used as the
poll interval is the maximum of the configured value and 1; in particular a
configured TTL of 0 yields an effective TTL of 1. -/
theorem ttl_floor_max (c : Int) :
    effectiveTTL (some c) = max c 1 ∧ effectiveTTL (some 0) = 1 := by
  constructor
  · simp [effectiveTTL]
  · rfl

/-- Claim C7, counterexample: when the subdomain target's name key is
absent, `prepareDNSRecord` raises an `AttributeError` (the `dict.get`
default is the dict itself, which has no `.strip`) instead of computing
the bare base domain as the fully-qualified name. -/
theorem absent_name_raises :
    prepareDNSRecord { name := none, proxied := none } "example.com"
        { type := "A", ip := "1.2.3.4" }
        { zone_id := "zone1", subdomains := [], proxied := true } 300
      = Except.error (PyErr.attributeError "dict object has no attribute strip") := rfl

/-- Claim C7 (amended): when the target's name is present, computing the
fully-qualified name is deterministic (immediate, since `prepareDNSRecord`
is a pure function: applying it twice to the same inputs yields the same
result definitionally), and the fqdn is the bare base domain with no
leading separator when the normalized name is empty or the apex sentinel
`"@"`, and `name ++ "." ++ base` otherwise.  When the name key is absent
the function instead raises (see the counterexample). -/
theorem fqdn_shape (raw base_domain_name : String) (p : Option Bool)
    (ip : DetectedIP) (option : Account) (ttl : Int) :
    (pyLower (pyStrip raw) = "" ∨ pyLower (pyStrip raw) = "@" →
      ∃ record, prepareDNSRecord { name := some raw, proxied := p }
          base_domain_name ip option ttl = Except.ok (base_domain_name, record)) ∧
    (pyLower (pyStrip raw) ≠ "" → pyLower (pyStrip raw) ≠ "@" →
      ∃ record, prepareDNSRecord { name := some raw, proxied := p }
          base_domain_name ip option ttl
        = Except.ok (pyLower (pyStrip raw) ++ "." ++ base_domain_name, record)) := by
  constructor
  · intro h
    refine ⟨{ type := ip.type, name := base_domain_name, content := ip.ip,
              proxied := p.getD option.proxied, ttl := ttl }, ?_⟩
    simp only [prepareDNSRecord]
    rcases h with h | h <;> simp [h]
  · intro h1 h2
    refine ⟨{ type := ip.type, name := pyLower (pyStrip raw) ++ "." ++ base_domain_name,
              content := ip.ip, proxied := p.getD option.proxied, ttl := ttl }, ?_⟩
    simp only [prepareDNSRecord]
    simp [h1, h2]

/-- Witness for the amended claim C7, at the apex sentinel and at a plain
name. -/
theorem fqdn_shape_witness :
    (∃ record, prepareDNSRecord { name := some "@", proxied := none } "example.com"
        { type := "A", ip := "1.2.3.4" }
        { zone_id := "zone1", subdomains := [], proxied := true } 300
      = Except.ok ("example.com", record)) ∧
    (∃ record, prepareDNSRecord { name := some " HoMe ", proxied := none } "example.com"
        { type := "A", ip := "1.2.3.4" }
        { zone_id := "zone1", subdomains := [], proxied := true } 300
      = Except.ok ("home.example.com", record)) := by
  constructor
  · exact (fqdn_shape "@" "example.com" none { type := "A", ip := "1.2.3.4" }
      { zone_id := "zone1", subdomains := [], proxied := true } 300).1 (Or.inr (by decide))
  · have h := (fqdn_shape " HoMe " "example.com" none { type := "A", ip := "1.2.3.4" }
      { zone_id := "zone1", subdomains := [], proxied := true } 300).2 (by decide) (by decide)
    have e : pyLower (pyStrip " HoMe ") ++ "." ++ "example.com" = "home.example.com" := by decide
    rw [e] at h
    exact h

/-- Claim C10: for a target whose name is present, the name is normalized
(whitespace stripped, characters lowercased) before use: the computed fqdn
is either the bare base domain or the normalized name joined to the base
domain, and the `name` field of the record payload equals that fqdn, so
every created or updated record carries the normalized form. -/
theorem name_normalized (raw base_domain_name : String) (p : Option Bool)
    (ip : DetectedIP) (option : Account) (ttl : Int) (fqdn : String)
    (record : DesiredRecord)
    (h : prepareDNSRecord { name := some raw, proxied := p } base_domain_name
        ip option ttl = Except.ok (fqdn, record)) :
    record.name = fqdn ∧
      (fqdn = base_domain_name ∨
       fqdn = pyLower (pyStrip raw) ++ "." ++ base_domain_name) := by
  simp only [prepareDNSRecord, Except.ok.injEq, Prod.mk.injEq] at h
  obtain ⟨hf, hr⟩ := h
  constructor
  · rw [← hr]
    exact hf
  · by_cases hc : pyLower (pyStrip raw) ≠ "" ∧ pyLower (pyStrip raw) ≠ "@"
    · right; rw [← hf]; simp [hc]
    · left; rw [← hf]; simp only [if_neg hc]

/-- Witness for claim C10: the configured name `" HoMe "` yields a record
whose name field is `"home.example.com"`. -/
theorem name_normalized_witness :
    ({ type := "A", name := "home.example.com", content := "1.2.3.4",
       proxied := true, ttl := 300 } : DesiredRecord).name = "home.example.com" ∧
      ("home.example.com" = "example.com" ∨
       "home.example.com" = pyLower (pyStrip " HoMe ") ++ "." ++ "example.com") :=
  name_normalized " HoMe " "example.com" none { type := "A", ip := "1.2.3.4" }
    { zone_id := "zone1", subdomains := [], proxied := true } 300
    "home.example.com"
    { type := "A", name := "home.example.com", content := "1.2.3.4",
      proxied := true, ttl := 300 } (by rfl)

/-- Claim C2, counterexample: when the record listing succeeds but lists
zero records of the kind (so in particular no record matches the
fully-qualified name), `processDNSRecord` issues zero create calls, not
one — the guard `if dns_records and dns_records.get("result")` rejects the
empty (falsy) result list and the function returns without any call. -/
theorem empty_listing_no_create :
    (processDNSRecord "home.example.com" homeRecord "zone1"
        (some [])).countP WriteCall.isPost = 0 := rfl

/-- Claim C2 (amended): if the listing succeeds and lists at least one
record of the kind, and no listed record's name equals the computed
fully-qualified name, `processDNSRecord` issues exactly one create (POST)
with the desired payload and zero updates; when the listing fails or lists
zero records it issues no call at all. -/
theorem create_when_no_match (fqdn : String) (record : DesiredRecord)
    (zone_id : String) (rs : List DNSRec) (hne : rs ≠ [])
    (hnomatch : ∀ r ∈ rs, r.name ≠ fqdn) :
    processDNSRecord fqdn record zone_id (some rs)
      = [WriteCall.post zone_id record] := by
  rw [processDNSRecord_eq fqdn record zone_id rs hne,
     lastMatch_eq_none.mpr hnomatch]

/-- Witness for the amended claim C2: a listing holding one unrelated
record leads to exactly one create call. -/
theorem create_when_no_match_witness :
    processDNSRecord "home.example.com" homeRecord "zone1"
        (some [{ id := "id7", name := "www.example.com", content := "9.9.9.9",
                 proxied := false }])
      = [WriteCall.post "zone1" homeRecord] :=
  create_when_no_match "home.example.com" homeRecord "zone1"
    [{ id := "id7", name := "www.example.com", content := "9.9.9.9",
       proxied := false }] (by decide) (by decide)

/-- Claim C3: when exactly one listed record matches the fully-qualified
name and it already has the desired content and proxied flag (and a
non-empty provider identifier, as provider-assigned ids are),
`processDNSRecord` issues zero write calls: reconciliation is idempotent
on an already-correct record. -/
theorem idempotent_when_correct (fqdn : String) (record : DesiredRecord)
    (zone_id : String) (rs : List DNSRec) (r : DNSRec)
    (hmem : r ∈ rs) (hname : r.name = fqdn)
    (huniq : ∀ q ∈ rs, q.name = fqdn → q = r)
    (hid : r.id ≠ "")
    (hcontent : r.content = record.content)
    (hproxied : r.proxied = record.proxied) :
    processDNSRecord fqdn record zone_id (some rs) = [] := by
  have hne : rs ≠ [] := by
    intro h
    subst h
    simp at hmem
  rw [processDNSRecord_eq fqdn record zone_id rs hne,
     lastMatch_unique hmem hname huniq]
  simp [hid, hcontent, hproxied]

/-- Witness for claim C3: an already-correct record for
`home.example.com` leads to zero write calls. -/
theorem idempotent_when_correct_witness :
    processDNSRecord "home.example.com" homeRecord "zone1"
        (some [{ id := "id1", name := "home.example.com", content := "1.2.3.4",
                 proxied := true }])
      = [] :=
  idempotent_when_correct "home.example.com" homeRecord "zone1"
    [{ id := "id1", name := "home.example.com", content := "1.2.3.4",
       proxied := true }]
    { id := "id1", name := "home.example.com", content := "1.2.3.4",
      proxied := true }
    (by decide) (by decide) (by decide) (by decide) (by decide) (by decide)

/-- Claim C4: when exactly one listed record matches the fully-qualified
name (with a non-empty provider identifier) and its content or proxied
flag differs from the desired value, `processDNSRecord` issues exactly one
update (PUT) to that record's identifier with the full desired payload,
and zero create calls. -/
theorem update_when_divergent (fqdn : String) (record : DesiredRecord)
    (zone_id : String) (rs : List DNSRec) (r : DNSRec)
    (hmem : r ∈ rs) (hname : r.name = fqdn)
    (huniq : ∀ q ∈ rs, q.name = fqdn → q = r)
    (hid : r.id ≠ "")
    (hdiff : r.content ≠ record.content ∨ r.proxied ≠ record.proxied) :
    processDNSRecord fqdn record zone_id (some rs)
      = [WriteCall.put zone_id r.id record] := by
  have hne : rs ≠ [] := by
    intro h
    subst h
    simp at hmem
  rw [processDNSRecord_eq fqdn record zone_id rs hne,
     lastMatch_unique hmem hname huniq]
  simp [hid, hdiff]

/-- Witness for claim C4: a stale record holding `9.9.9.9` leads to exactly
one update call carrying the full desired payload. -/
theorem update_when_divergent_witness :
    processDNSRecord "home.example.com" homeRecord "zone1"
        (some [{ id := "id1", name := "home.example.com", content := "9.9.9.9",
                 proxied := true }])
      = [WriteCall.put "zone1" "id1" homeRecord] :=
  update_when_divergent "home.example.com" homeRecord "zone1"
    [{ id := "id1", name := "home.example.com", content := "9.9.9.9",
       proxied := true }]
    { id := "id1", name := "home.example.com", content := "9.9.9.9",
      proxied := true }
    (by decide) (by decide) (by decide) (by decide) (Or.inl (by decide))

/-- Claim C8: the reconciler treats at most one listed record as the
managed record — whenever the listing has records matching the
fully-qualified name, both the update target and the divergence check come
from the last matching record in provider-returned order: the write trace
is one PUT to that record's identifier when it diverges from the desired
payload, and empty otherwise. -/
theorem last_match_decides (fqdn : String) (record : DesiredRecord)
    (zone_id : String) (rs : List DNSRec) (m : DNSRec)
    (hm : lastMatch fqdn rs = some m) (hid : m.id ≠ "") :
    processDNSRecord fqdn record zone_id (some rs)
      = if m.content ≠ record.content ∨ m.proxied ≠ record.proxied then
          [WriteCall.put zone_id m.id record]
        else [] := by
  have hne : rs ≠ [] := by
    intro h
    subst h
    simp [lastMatch] at hm
  rw [processDNSRecord_eq fqdn record zone_id rs hne, hm]
  by_cases hd : m.content ≠ record.content ∨ m.proxied ≠ record.proxied
  · simp [hid, hd]
  · simp [hid, hd]

/-- Witness for claim C8: with two records sharing the name
`home.example.com`, the first already correct and the second stale, the
update targets the second (last) record. -/
theorem last_match_decides_witness :
    processDNSRecord "home.example.com" homeRecord "zone1"
        (some [{ id := "id1", name := "home.example.com", content := "1.2.3.4",
                 proxied := true },
               { id := "id2", name := "home.example.com", content := "9.9.9.9",
                 proxied := true }])
      = if ("9.9.9.9" : String) ≠ "1.2.3.4" ∨ (true : Bool) ≠ true then
          [WriteCall.put "zone1" "id2" homeRecord]
        else [] :=
  last_match_decides "home.example.com" homeRecord "zone1"
    [{ id := "id1", name := "home.example.com", content := "1.2.3.4",
       proxied := true },
     { id := "id2", name := "home.example.com", content := "9.9.9.9",
       proxied := true }]
    { id := "id2", name := "home.example.com", content := "9.9.9.9",
      proxied := true }
    (by decide) (by decide)

/-- Claim C5, counterexample: `response.raise_for_status()` raises only
for status codes 400-599, so a non-2xx status below 400 — here a 304 whose
body happens to parse as JSON — is returned as a successful payload, not
converted to `None`. -/
theorem not_modified_returned :
    cf_api (HttpOutcome.response 304 (some (42 : Nat))) = some 42 := rfl

/-- Claim C5 (amended): every transport error, every 4xx/5xx status, and
every malformed JSON body is caught inside `cf_api` and converted to
`None`; no exception propagates to the caller.  (Statuses outside 400-599
with a well-formed JSON body are returned as success — see the
counterexample.) -/
theorem cf_api_failures_none {α : Type} (msg : String) (status : Nat)
    (body : Option α) :
    cf_api (HttpOutcome.transportError msg : HttpOutcome α) = none ∧
    (400 ≤ status → status ≤ 599 →
      cf_api (HttpOutcome.response status body) = none) ∧
    cf_api (HttpOutcome.response status (none : Option α)) = none := by
  refine ⟨rfl, ?_, ?_⟩
  · intro h1 h2
    simp [cf_api, h1, h2]
  · by_cases h : 400 ≤ status ∧ status ≤ 599
    · simp [cf_api, h]
    · simp [cf_api, h]

/-- Witness for the amended claim C5: a refused connection, a 500, and a
200 with an unparseable body all yield `None`. -/
theorem cf_api_failures_none_witness :
    cf_api (HttpOutcome.transportError "connection refused" : HttpOutcome Nat) = none ∧
    cf_api (HttpOutcome.response 500 (some (42 : Nat))) = none ∧
    cf_api (HttpOutcome.response 200 (none : Option Nat)) = none :=
  ⟨(@cf_api_failures_none Nat "connection refused" 500 (some 42)).1,
   (@cf_api_failures_none Nat "connection refused" 500 (some 42)).2.1
     (by decide) (by decide),
   (@cf_api_failures_none Nat "connection refused" 200 none).2.2⟩

/-- When the listing succeeds for every configured account,
`deleteEntries` issues exactly one DELETE per listed record per account,
in order. -/
theorem deleteEntries_eq (cfg : List Account)
    (listing : String → Option (List DNSRec)) (recs : Account → List DNSRec)
    (hlist : ∀ a ∈ cfg, listing a.zone_id = some (recs a)) :
    deleteEntries cfg listing =
      cfg.flatMap (fun a => (recs a).map (fun r => WriteCall.delete a.zone_id r.id)) := by
  induction cfg with
  | nil => rfl
  | cons a rest ih =>
    have ha := hlist a (List.mem_cons_self a rest)
    have hrest : ∀ a' ∈ rest, listing a'.zone_id = some (recs a') :=
      fun a' h' => hlist a' (List.mem_cons_of_mem _ h')
    simp only [deleteEntries, List.flatMap_cons] at *
    rw [ha, ih hrest]
    cases h : recs a with
    | nil => simp
    | cons x xs => simp

/-- Claim C6: when IPv6 detection fails on both trace endpoints in a cycle
(and IPv4 does not itself trigger a purge, being disabled or successfully
detected): with purging disabled, `getIPs` issues zero delete calls; with
purging enabled and the record listing succeeding for every account, it
issues exactly one delete per listed AAAA record per configured account,
unfiltered by name. -/
theorem purge_on_ipv6_failure (w : World) (cfg : List Account) (fl : Flags)
    (st : WarnState) (e1 e2 : PyErr)
    (h6 : fl.ipv6_enabled = true)
    (hp : w.v6primary = Except.error e1)
    (hs : w.v6secondary = Except.error e2)
    (hv4 : fl.ipv4_enabled = false ∨
           ∃ ip, get_public_ip w.v4outcomes = Except.ok ip) :
    (fl.purgeUnknownRecords = false →
      ((getIPs w cfg fl st).2.1.countP WriteCall.isDelete) = 0) ∧
    (fl.purgeUnknownRecords = true →
      ∀ recs : Account → List DNSRec,
        (∀ a ∈ cfg, w.records a.zone_id "AAAA" = some (recs a)) →
        (getIPs w cfg fl st).2.1 =
          cfg.flatMap (fun a =>
            (recs a).map (fun r => WriteCall.delete a.zone_id r.id))) := by
  have hA : (getIPs w cfg fl st).2.1 =
      (if fl.purgeUnknownRecords then
        deleteEntries cfg (fun z => w.records z "AAAA")
      else []) := by
    rcases hv4 with h4 | ⟨ip, hip⟩
    · simp [getIPs, h4, h6, hp, hs]
    · by_cases hen : fl.ipv4_enabled
      · simp [getIPs, hen, hip, h6, hp, hs]
      · simp [getIPs, hen, h6, hp, hs]
  constructor
  · intro hpu
    rw [hA]
    simp [hpu]
  · intro hpu recs hlist
    rw [hA]
    simp only [hpu, if_true]
    exact deleteEntries_eq cfg (fun z => w.records z "AAAA") recs hlist

/-- Witness for claim C6, purge-enabled side: in `purgeWorld` (IPv4
detected, both IPv6 endpoints down, two AAAA records listed in `zone1`)
with purging enabled, the cycle's purge trace deletes exactly those two
records. -/
theorem purge_on_ipv6_failure_witness :
    (getIPs purgeWorld purgeCfg
        { ipv4_enabled := true, ipv6_enabled := true, purgeUnknownRecords := true }
        { shown_ipv4_warning := false, shown_ipv6_warning := false,
          shown_ipv6_warning_secondary := false }).2.1 =
      purgeCfg.flatMap (fun a =>
        (purgeRecs a).map (fun r => WriteCall.delete a.zone_id r.id)) :=
  (purge_on_ipv6_failure purgeWorld purgeCfg
      { ipv4_enabled := true, ipv6_enabled := true, purgeUnknownRecords := true }
      { shown_ipv4_warning := false, shown_ipv6_warning := false,
        shown_ipv6_warning_secondary := false }
      (PyErr.exception "timeout") (PyErr.exception "timeout")
      rfl rfl rfl (Or.inr ⟨"1.2.3.4", rfl⟩)).2 rfl purgeRecs (by decide)

/-- Claim C1: a poll cycle always returns normally to the loop — for every
world (every combination of detection-service outcomes, IPv6-endpoint
outcomes, and provider-call outcomes), every configuration, and every
warn-once state, `runCycle` — the embedding of `getIPs()` followed by
`updateIPs(ips)` in which every Python `try/except` is an explicit match
on the raised error — produces `Except.ok`: no failure arising inside the
cycle escapes as an exception and terminates the process. -/
theorem cycle_always_returns (w : World) (cfg : List Account) (fl : Flags)
    (ttl : Int) (st : WarnState) :
    (runCycle w cfg fl ttl st).isOk = true := rfl

end CloudflareDDNS
